import Mathlib

/-!
Verification of the UoH GPA calculator core
(`src/components/ResultModal.tsx`, component `GPACalculator`, plus the
grade-calculation utilities it imports).

JavaScript numbers are embedded as rationals (`ℚ`); credit hours are
embedded as naturals, following the data model ("positive integer
weight").  Stateful React code is embedded as explicit state passing on a
`CalcState` record; external side effects (toast notifications, confetti,
the PDF document) are returned as explicit values.
-/

namespace UoHGPA

/-- One course entry, mirroring the `Subject` record used throughout
`GPACalculator` (`id`, `name`, `marks`, `creditHours`). -/
structure Subject where
  id : String
  name : String
  marks : ℚ
  creditHours : ℕ
deriving Repr, DecidableEq

/-- Immutable outcome of one calculation, mirroring the `result` state
value `{ gpa, grade, remarks }`. -/
structure Result where
  gpa : ℚ
  grade : String
  remarks : String
deriving Repr, DecidableEq

/-- Modelled from the spec: the per-subject marks → grade-point table of
`utils/gradeCalculations.ts`, which is not part of the provided sources.
The spec fixes the endpoints (marks ≥ 85 → 4.0, ≥ 80 → 3.7, …, < 50 →
0.0) and leaves the intermediate cut points as institution policy; the
table below follows that shape, evaluated top-down. -/
def gradePoint (marks : ℚ) : ℚ :=
  if 85 ≤ marks then 4
  else if 80 ≤ marks then 37/10
  else if 75 ≤ marks then 33/10
  else if 70 ≤ marks then 3
  else if 65 ≤ marks then 27/10
  else if 61 ≤ marks then 23/10
  else if 58 ≤ marks then 2
  else if 55 ≤ marks then 17/10
  else if 50 ≤ marks then 1
  else 0

/-- Modelled from the spec: `calculateGPA` of `utils/gradeCalculations.ts`
(missing from the sources): the credit-hour-weighted mean
`Σ (gradePoint marksᵢ × creditHoursᵢ) / Σ creditHoursᵢ`. -/
def calculateGPA (subjects : List Subject) : ℚ :=
  (subjects.map fun s => gradePoint s.marks * (s.creditHours : ℚ)).sum /
    (subjects.map fun s => (s.creditHours : ℚ)).sum

/-- Modelled from the spec: `getGPAPercentage` of
`utils/gradeCalculations.ts` (missing from the sources), the documented
fixed linear scale `gpa / 4 × 100`. -/
def getGPAPercentage (gpa : ℚ) : ℚ := gpa / 4 * 100

/-- Modelled from the spec: `getLetterGrade` of
`utils/gradeCalculations.ts` (missing from the sources): a fixed ordered
grade table evaluated top-down (≥ 90 → "A", ≥ 80 → "B", …, < 50 → "F"). -/
def getLetterGrade (percentage : ℚ) : String :=
  if 90 ≤ percentage then "A"
  else if 80 ≤ percentage then "B"
  else if 70 ≤ percentage then "C"
  else if 60 ≤ percentage then "D"
  else if 50 ≤ percentage then "E"
  else "F"

/-- Modelled from the spec: `getRemarks` of `utils/gradeCalculations.ts`
(missing from the sources): a threshold table in the same style as the
letter grade, mapping to qualitative phrases. -/
def getRemarks (percentage : ℚ) : String :=
  if 90 ≤ percentage then "Excellent"
  else if 80 ≤ percentage then "Very Good"
  else if 70 ≤ percentage then "Good"
  else if 50 ≤ percentage then "Satisfactory"
  else "Needs Improvement"

/-- JavaScript `String.prototype.trim`: drop leading and trailing
whitespace.  Embedded on the underlying character list so that it is
kernel-reducible. -/
def trimStr (s : String) : String :=
  ⟨((s.data.dropWhile Char.isWhitespace).reverse.dropWhile Char.isWhitespace).reverse⟩

/-- The validity filter applied by `calculateResult`
(ResultModal.tsx:323-325): non-empty trimmed name and marks in [0,100]. -/
def isValidSubject (s : Subject) : Bool :=
  trimStr s.name ≠ "" && 0 ≤ s.marks && s.marks ≤ 100

/-- Total credit hours of a subject list (the denominator of
`calculateGPA`). -/
def totalCreditHours (subjects : List Subject) : ℕ :=
  (subjects.map Subject.creditHours).sum

/-- The core state owned by the `GPACalculator` component
(ResultModal.tsx:220-228): the chosen subject count (`null` embedded as
`none`), the subject list, the current result (`null` as `none`) and the
modal-visibility flag. -/
structure CalcState where
  subjectCount : Option ℕ
  subjects : List Subject
  result : Option Result
  showModal : Bool
deriving Repr, DecidableEq

/-- The fresh subject list built by the `subjectCount` effect
(ResultModal.tsx:231-243): for a truthy count `n`, entries with ids
"1".."n", empty name, marks 0, creditHours 1; for `null` (or the falsy
count 0), the empty list. -/
def subjectsForCount : Option ℕ → List Subject
  | none => []
  | some n =>
    if n = 0 then []
    else (List.range n).map fun index =>
      { id := toString (index + 1), name := "", marks := 0, creditHours := 1 }

/-- `setSubjectCount` together with its effect (ResultModal.tsx:221,
231-243): stores the new count and rebuilds the subject list from
scratch. -/
def setSubjectCountOp (st : CalcState) (n : Option ℕ) : CalcState :=
  { st with subjectCount := n, subjects := subjectsForCount n }

/-- The `onSelect` handler of a subject-count `CommandItem`
(ResultModal.tsx:472-475): picking the already-current value toggles the
count to `null`, anything else sets it. -/
def selectSubjectCount (st : CalcState) (v : ℕ) : CalcState :=
  setSubjectCountOp st (if some v = st.subjectCount then none else some v)

/-- A single field update, covering the `field : keyof Subject` /
`value : string | number` pair passed to `updateSubject`. -/
inductive FieldUpdate
  | id (v : String)
  | name (v : String)
  | marks (v : ℚ)
  | creditHours (v : ℕ)
deriving Repr, DecidableEq

/-- The spread `{ ...subject, [field]: value }` applied to one entry. -/
def setField (s : Subject) : FieldUpdate → Subject
  | .id v => { s with id := v }
  | .name v => { s with name := v }
  | .marks v => { s with marks := v }
  | .creditHours v => { s with creditHours := v }

/-- The field of a `FieldUpdate`, for stating frame conditions. -/
def FieldUpdate.targetsId : FieldUpdate → Bool
  | .id _ => true
  | _ => false

/-- `updateSubject` (ResultModal.tsx:316-320): map over the list,
replacing the named field of every entry whose id matches. -/
def updateSubject (subjects : List Subject) (id : String) (u : FieldUpdate) :
    List Subject :=
  subjects.map fun subject => if subject.id = id then setField subject u else subject

/-- Which user-visible toast (if any) `calculateResult` raises, and
whether it succeeds. -/
inductive CalcOutcome
  | emptyInput
  | incompleteData
  | success
deriving Repr, DecidableEq

/-- `calculateResult` (ResultModal.tsx:322-355): filter to the valid
subset; raise "Invalid Input" when it is empty, "Incomplete Data" when
its size differs from `subjectCount` (both leaving the state untouched);
otherwise compute gpa/grade/remarks from the valid subset, store the
result and open the modal. -/
def calculateResult (st : CalcState) : CalcState × CalcOutcome :=
  let validSubjects := st.subjects.filter isValidSubject
  if validSubjects.length = 0 then (st, .emptyInput)
  else if some validSubjects.length ≠ st.subjectCount then (st, .incompleteData)
  else
    let gpa := calculateGPA validSubjects
    let percentage := getGPAPercentage gpa
    let grade := getLetterGrade percentage
    let remarks := getRemarks percentage
    ({ st with result := some { gpa, grade, remarks }, showModal := true }, .success)

/-- `triggerConfetti` (ResultModal.tsx:245-314): fires (creates a canvas
and launches confetti) exactly when `gpa >= 3`; it touches only the DOM,
never the component state.  The boolean records whether the celebratory
effect fired. -/
def triggerConfetti (gpa : ℚ) (st : CalcState) : CalcState × Bool :=
  if 3 ≤ gpa then (st, true) else (st, false)

/-- The `onClose` handler handed to `ResultModal`
(ResultModal.tsx:596): dismissing the overlay only clears the
visibility flag. -/
def dismissOverlay (st : CalcState) : CalcState :=
  { st with showModal := false }

/-- One drawing command of the exported document: a text run at a
vertical position `y`, or an `addPage` break.  Horizontal positions,
fonts and colors are presentational and not recorded. -/
inductive PdfItem
  | text (s : String) (y : ℕ)
  | newPage
deriving Repr, DecidableEq

/-- JavaScript `Number.prototype.toFixed(2)` on a rational: round to the
nearest hundredth and print with exactly two decimal digits. -/
def toFixed2 (q : ℚ) : String :=
  let n : ℤ := round (q * 100)
  let sign := if n < 0 then "-" else ""
  let m := n.natAbs
  let frac := m % 100
  sign ++ toString (m / 100) ++ "." ++ (if frac < 10 then "0" else "") ++ toString frac

/-- JavaScript template interpolation `${x}` of a numeric value. -/
def numStr (q : ℚ) : String :=
  if q.den = 1 then toString q.num else toString q

/-- The per-subject line written by `exportToPDF` (ResultModal.tsx:396-400):
`"<index+1>. <name>: <marks>/100 (<creditHours> credit hours)"`. -/
def subjectLine (index : ℕ) (s : Subject) : String :=
  toString (index + 1) ++ ". " ++ s.name ++ ": " ++ numStr s.marks ++
    "/100 (" ++ toString s.creditHours ++ " credit hours)"

/-- The subject-details loop of `exportToPDF` (ResultModal.tsx:390-402):
starting at index `index` and vertical position `y`, add a page (and
reset to y = 20) whenever `y > 270`, write the subject's line, and move
down 10 units. -/
def renderSubjects (index y : ℕ) : List Subject → List PdfItem
  | [] => []
  | s :: rest =>
    if 270 < y then
      .newPage :: .text (subjectLine index s) 20 :: renderSubjects (index + 1) 30 rest
    else
      .text (subjectLine index s) y :: renderSubjects (index + 1) (y + 10) rest

/-- The value of `yPosition` after the subject-details loop. -/
def yAfterSubjects (y : ℕ) : List Subject → ℕ
  | [] => y
  | _ :: rest =>
    if 270 < y then yAfterSubjects 30 rest else yAfterSubjects (y + 10) rest

/-- The document built by `exportToPDF` (ResultModal.tsx:361-413):
title, results section (GPA to two decimals, grade, remarks), the
subject-details loop from y = 120, and the footer (with a page break
first when `yPosition > 250`) carrying the generation date. -/
def buildPdf (r : Result) (subjects : List Subject) (dateStr : String) :
    List PdfItem :=
  let yEnd := yAfterSubjects 120 subjects
  let footerY := if 250 < yEnd then 20 else yEnd
  [.text "UoH GPA Calculator Results" 30,
   .text "Results:" 50,
   .text ("GPA: " ++ toFixed2 r.gpa) 65,
   .text ("Grade: " ++ r.grade) 75,
   .text ("Remarks: " ++ r.remarks) 85,
   .text "Subject Details:" 105] ++
  renderSubjects 0 120 subjects ++
  (if 250 < yEnd then [.newPage] else []) ++
  [.text ("Generated on: " ++ dateStr) (footerY + 20),
   .text ("Prepared by students of Batch 2024 – AI Section A & B") (footerY + 30)]

/-- What `exportToPDF` reports: the early return on a `null` result, the
success toast, or the catch-branch "Export Error" toast. -/
inductive ExportOutcome
  | noResult
  | exported
  | exportFailed
deriving Repr, DecidableEq

/-- `exportToPDF` (ResultModal.tsx:357-431): no-op when `result` is
null; otherwise build and save the document inside a try/catch.  The
`exporterOk` flag models whether the jsPDF collaborator throws.  On
success the document is produced and the modal closed; on failure the
catch branch only raises the "Export Error" toast, leaving the state
unchanged. -/
def exportToPDF (exporterOk : Bool) (dateStr : String) (st : CalcState) :
    CalcState × Option (List PdfItem) × ExportOutcome :=
  match st.result with
  | none => (st, none, .noResult)
  | some r =>
    if exporterOk then
      ({ st with showModal := false }, some (buildPdf r st.subjects dateStr), .exported)
    else
      (st, none, .exportFailed)

/-! ### Theorems -/

/-- C5: Setting the subject count to `n` replaces the entire subject list
with exactly `n` fresh entries having sequential ids "1" through "n",
empty name, marks 0 and creditHours 1, regardless of any previously
entered data, and setting the count to null or zero clears the list. -/
theorem setSubjectCount_fresh_entries (st : CalcState) (n i : ℕ) (h : i < n) :
    (setSubjectCountOp st (some n)).subjects.length = n ∧
    (setSubjectCountOp st (some n)).subjects[i]? =
      some { id := toString (i + 1), name := "", marks := 0, creditHours := 1 } ∧
    (setSubjectCountOp st none).subjects = [] ∧
    (setSubjectCountOp st (some 0)).subjects = [] := by
  have hn : n ≠ 0 := by omega
  refine ⟨?_, ?_, rfl, rfl⟩
  · simp [setSubjectCountOp, subjectsForCount, hn]
  · simp [setSubjectCountOp, subjectsForCount, hn, List.getElem?_map,
      List.getElem?_range, h]

/-- Witness for C5 at a concrete state: resizing a filled 2-entry form to
3 subjects yields a fresh second entry. -/
theorem setSubjectCount_fresh_entries_witness :
    (setSubjectCountOp
        { subjectCount := some 2,
          subjects := [{ id := "1", name := "Math", marks := 90, creditHours := 3 },
                       { id := "2", name := "Phy", marks := 80, creditHours := 2 }],
          result := none, showModal := false } (some 3)).subjects.length = 3 ∧
    (setSubjectCountOp
        { subjectCount := some 2,
          subjects := [{ id := "1", name := "Math", marks := 90, creditHours := 3 },
                       { id := "2", name := "Phy", marks := 80, creditHours := 2 }],
          result := none, showModal := false } (some 3)).subjects[1]? =
      some { id := "2", name := "", marks := 0, creditHours := 1 } ∧
    (setSubjectCountOp
        { subjectCount := some 2,
          subjects := [{ id := "1", name := "Math", marks := 90, creditHours := 3 },
                       { id := "2", name := "Phy", marks := 80, creditHours := 2 }],
          result := none, showModal := false } none).subjects = [] ∧
    (setSubjectCountOp
        { subjectCount := some 2,
          subjects := [{ id := "1", name := "Math", marks := 90, creditHours := 3 },
                       { id := "2", name := "Phy", marks := 80, creditHours := 2 }],
          result := none, showModal := false } (some 0)).subjects = [] :=
  setSubjectCount_fresh_entries _ 3 1 (by decide)

/-- C6: `updateSubject` keeps the list length and order, rewrites every
position whose entry matches the id (replacing exactly the named field,
leaving the other fields of that entry unchanged, with no validation of
the new value), and is a no-op when no entry has the given id. -/
theorem updateSubject_frame (subjects : List Subject) (id : String) (u : FieldUpdate) :
    (updateSubject subjects id u).length = subjects.length ∧
    (∀ i : ℕ, (updateSubject subjects id u)[i]? =
      (subjects[i]?).map fun s => if s.id = id then setField s u else s) ∧
    ((∀ s ∈ subjects, s.id ≠ id) → updateSubject subjects id u = subjects) ∧
    (∀ s, (setField s u).id = (match u with | .id v => v | _ => s.id) ∧
      (setField s u).name = (match u with | .name v => v | _ => s.name) ∧
      (setField s u).marks = (match u with | .marks v => v | _ => s.marks) ∧
      (setField s u).creditHours =
        (match u with | .creditHours v => v | _ => s.creditHours)) := by
  refine ⟨by simp [updateSubject], ?_, ?_, ?_⟩
  · intro i
    simp [updateSubject, List.getElem?_map]
  · intro hnone
    unfold updateSubject
    conv_rhs => rw [← List.map_id subjects]
    rw [List.map_eq_map_iff]
    intro s hs
    simp [hnone s hs]
  · intro s
    cases u <;> simp [setField]

/-- C3: Both failure branches of `calculateResult` leave the state
(hence the subject list and the stored result) unchanged; in particular a
failed calculation keeps `result` at null when it was null. -/
theorem calculateResult_failure_frame (st : CalcState)
    (h : (calculateResult st).2 = CalcOutcome.emptyInput ∨
      (calculateResult st).2 = CalcOutcome.incompleteData) :
    (calculateResult st).1 = st ∧
    (calculateResult st).1.subjects = st.subjects ∧
    (calculateResult st).1.result = st.result ∧
    (st.result = none → (calculateResult st).1.result = none) := by
  have hst : (calculateResult st).1 = st := by
    simp only [calculateResult] at h ⊢
    split_ifs at h ⊢ <;> simp_all
  exact ⟨hst, by rw [hst], by rw [hst], fun hn => by rw [hst, hn]⟩

/-- Witness for C3: with two untouched (hence invalid) entries the
calculation fails and the state, including the null result, is kept. -/
theorem calculateResult_failure_frame_witness :
    (calculateResult
        { subjectCount := some 2,
          subjects := [{ id := "1", name := "", marks := 0, creditHours := 1 },
                       { id := "2", name := "", marks := 0, creditHours := 1 }],
          result := none, showModal := false }).1 =
      { subjectCount := some 2,
        subjects := [{ id := "1", name := "", marks := 0, creditHours := 1 },
                     { id := "2", name := "", marks := 0, creditHours := 1 }],
        result := none, showModal := false } ∧
    (calculateResult
        { subjectCount := some 2,
          subjects := [{ id := "1", name := "", marks := 0, creditHours := 1 },
                       { id := "2", name := "", marks := 0, creditHours := 1 }],
          result := none, showModal := false }).1.subjects =
      [{ id := "1", name := "", marks := 0, creditHours := 1 },
       { id := "2", name := "", marks := 0, creditHours := 1 }] ∧
    (calculateResult
        { subjectCount := some 2,
          subjects := [{ id := "1", name := "", marks := 0, creditHours := 1 },
                       { id := "2", name := "", marks := 0, creditHours := 1 }],
          result := none, showModal := false }).1.result = none :=
  have h := calculateResult_failure_frame
    { subjectCount := some 2,
      subjects := [{ id := "1", name := "", marks := 0, creditHours := 1 },
                   { id := "2", name := "", marks := 0, creditHours := 1 }],
      result := none, showModal := false } (Or.inl (by decide))
  ⟨h.1, h.2.1, h.2.2.2 rfl⟩

/-- C4 counterexample: dismissing the overlay does NOT destroy the
stored Result.  At a state with an open overlay and a present result,
`onClose` (which only runs `setShowModal(false)`) leaves `result`
unchanged and non-null. -/
theorem dismissOverlay_keeps_result_cex :
    (dismissOverlay
        { subjectCount := some 1,
          subjects := [{ id := "1", name := "Math", marks := 90, creditHours := 3 }],
          result := some { gpa := 4, grade := "A", remarks := "Excellent" },
          showModal := true }).result =
      some { gpa := 4, grade := "A", remarks := "Excellent" } ∧
    (dismissOverlay
        { subjectCount := some 1,
          subjects := [{ id := "1", name := "Math", marks := 90, creditHours := 3 }],
          result := some { gpa := 4, grade := "A", remarks := "Excellent" },
          showModal := true }).showModal = false := by
  constructor <;> rfl

/-- C4 amended: dismissing the result overlay only clears the visibility
flag; the stored Result (and the subject list) is retained unchanged —
it is only ever replaced by the next successful calculation, never reset
to null by dismissal. -/
theorem dismissOverlay_only_closes (st : CalcState) :
    dismissOverlay st = { st with showModal := false } ∧
    (dismissOverlay st).result = st.result ∧
    (dismissOverlay st).subjects = st.subjects ∧
    (dismissOverlay st).showModal = false :=
  ⟨rfl, rfl, rfl, rfl⟩

/-- C10: selecting the subject-count option that is already the current
count toggles the count to null, which clears the entire subject list
(discarding all entered data) rather than leaving the form unchanged. -/
theorem selectCurrentCount_clears (st : CalcState) (v : ℕ)
    (h : st.subjectCount = some v) :
    (selectSubjectCount st v).subjectCount = none ∧
    (selectSubjectCount st v).subjects = [] := by
  simp [selectSubjectCount, setSubjectCountOp, subjectsForCount, h]

/-- Witness for C10: re-selecting "4 Subjects" when 4 is current wipes a
filled form. -/
theorem selectCurrentCount_clears_witness :
    (selectSubjectCount
        { subjectCount := some 4,
          subjects := [{ id := "1", name := "Math", marks := 90, creditHours := 3 },
                       { id := "2", name := "Phy", marks := 80, creditHours := 2 },
                       { id := "3", name := "Chem", marks := 70, creditHours := 3 },
                       { id := "4", name := "Eng", marks := 60, creditHours := 2 }],
          result := none, showModal := false } 4).subjectCount = none ∧
    (selectSubjectCount
        { subjectCount := some 4,
          subjects := [{ id := "1", name := "Math", marks := 90, creditHours := 3 },
                       { id := "2", name := "Phy", marks := 80, creditHours := 2 },
                       { id := "3", name := "Chem", marks := 70, creditHours := 3 },
                       { id := "4", name := "Eng", marks := 60, creditHours := 2 }],
          result := none, showModal := false } 4).subjects = [] :=
  selectCurrentCount_clears _ 4 rfl

/-- Scenario B of the spec: two range-valid subjects, marks 100 with 3
credit hours and marks 0 with 1 credit hour. -/
def scenarioB : CalcState :=
  { subjectCount := some 2,
    subjects := [{ id := "1", name := "Islamiat", marks := 100, creditHours := 3 },
                 { id := "2", name := "Calculus", marks := 0, creditHours := 1 }],
    result := none, showModal := false }

/-- A state whose overlay is open on a computed result, for exercising
the export and dismiss paths. -/
def readyState : CalcState :=
  { subjectCount := some 1,
    subjects := [{ id := "1", name := "Math", marks := 90, creditHours := 3 }],
    result := some { gpa := 4, grade := "A", remarks := "Excellent" },
    showModal := true }

/-- C7: with a non-null Result, a successful export closes the overlay
(and produces the document), while a failing exporter reports
`ExportFailed` and leaves the whole state — overlay still open, Result
retained — unchanged for a retry. -/
theorem exportToPDF_outcomes (st : CalcState) (r : Result) (d : String)
    (h : st.result = some r) :
    (exportToPDF true d st).1 = { st with showModal := false } ∧
    (exportToPDF true d st).2.2 = ExportOutcome.exported ∧
    (exportToPDF true d st).2.1 = some (buildPdf r st.subjects d) ∧
    (exportToPDF false d st).1 = st ∧
    (exportToPDF false d st).1.result = some r ∧
    (exportToPDF false d st).1.showModal = st.showModal ∧
    (exportToPDF false d st).2.2 = ExportOutcome.exportFailed := by
  simp [exportToPDF, h]

/-- Witness for C7 at the concrete ready state. -/
theorem exportToPDF_outcomes_witness :
    (exportToPDF true "10/11/2026" readyState).1 =
      { readyState with showModal := false } ∧
    (exportToPDF true "10/11/2026" readyState).2.2 = ExportOutcome.exported ∧
    (exportToPDF true "10/11/2026" readyState).2.1 =
      some (buildPdf { gpa := 4, grade := "A", remarks := "Excellent" }
        readyState.subjects "10/11/2026") ∧
    (exportToPDF false "10/11/2026" readyState).1 = readyState ∧
    (exportToPDF false "10/11/2026" readyState).1.result =
      some { gpa := 4, grade := "A", remarks := "Excellent" } ∧
    (exportToPDF false "10/11/2026" readyState).1.showModal = readyState.showModal ∧
    (exportToPDF false "10/11/2026" readyState).2.2 = ExportOutcome.exportFailed :=
  exportToPDF_outcomes readyState { gpa := 4, grade := "A", remarks := "Excellent" }
    "10/11/2026" rfl

/-- C8: after a successful calculation, the scheduled confetti call
fires if and only if the computed gpa is at least 3, never fires for a
gpa below 3, and leaves the component state (in particular the stored
Result) untouched either way. -/
theorem triggerConfetti_policy (st : CalcState)
    (h : (calculateResult st).2 = CalcOutcome.success) :
    ∃ r, ((calculateResult st).1).result = some r ∧
      (triggerConfetti r.gpa (calculateResult st).1).1 = (calculateResult st).1 ∧
      ((triggerConfetti r.gpa (calculateResult st).1).2 = true ↔ 3 ≤ r.gpa) ∧
      (r.gpa < 3 → (triggerConfetti r.gpa (calculateResult st).1).2 = false) := by
  simp only [calculateResult] at h ⊢
  split_ifs at h ⊢
  refine ⟨_, rfl, ?_, ?_, ?_⟩
  · unfold triggerConfetti; split <;> rfl
  · unfold triggerConfetti; split_ifs with hc <;> simp [hc]
  · intro hlt
    simp [triggerConfetti, not_le.mpr hlt]

/-- Witness for C8 at Scenario B, where the computed gpa is exactly 3
and the confetti fires. -/
theorem triggerConfetti_policy_witness :
    ∃ r, ((calculateResult scenarioB).1).result = some r ∧
      (triggerConfetti r.gpa (calculateResult scenarioB).1).1 =
        (calculateResult scenarioB).1 ∧
      ((triggerConfetti r.gpa (calculateResult scenarioB).1).2 = true ↔ 3 ≤ r.gpa) ∧
      (r.gpa < 3 →
        (triggerConfetti r.gpa (calculateResult scenarioB).1).2 = false) :=
  triggerConfetti_policy scenarioB (by decide)

/-- C2: under the list-length invariant maintained by the resize effect,
`calculateResult` raises `EmptyInput` exactly when the valid subset is
empty, raises `IncompleteData` exactly when the valid subset is
non-empty but its size differs from `subjectCount`, and otherwise
succeeds with a Result computed from the full subject list. -/
theorem calculateResult_validation (st : CalcState)
    (hinv : st.subjects.length = st.subjectCount.getD 0) :
    ((calculateResult st).2 = CalcOutcome.emptyInput ↔
      st.subjects.filter isValidSubject = []) ∧
    ((calculateResult st).2 = CalcOutcome.incompleteData ↔
      (st.subjects.filter isValidSubject ≠ [] ∧
        some (st.subjects.filter isValidSubject).length ≠ st.subjectCount)) ∧
    ((calculateResult st).2 = CalcOutcome.success →
      st.subjects.filter isValidSubject = st.subjects ∧
      (calculateResult st).1 = { st with
        result := some
          { gpa := calculateGPA st.subjects,
            grade := getLetterGrade (getGPAPercentage (calculateGPA st.subjects)),
            remarks := getRemarks (getGPAPercentage (calculateGPA st.subjects)) },
        showModal := true }) := by
  simp only [calculateResult]
  split_ifs with h1 h2
  · refine ⟨by simp [List.length_eq_zero.mp h1], ?_, by simp⟩
    simp [List.length_eq_zero.mp h1]
  · have hne : st.subjects.filter isValidSubject ≠ [] := fun he => h1 (by simp [he])
    refine ⟨by simp [hne], by simp [hne, h2], by simp⟩
  · push_neg at h2
    have hne : st.subjects.filter isValidSubject ≠ [] := fun he => h1 (by simp [he])
    have hlen : (st.subjects.filter isValidSubject).length = st.subjects.length := by
      rw [hinv, ← h2]; rfl
    have hfull : st.subjects.filter isValidSubject = st.subjects :=
      (List.filter_sublist st.subjects).eq_of_length hlen
    refine ⟨by simp [hne], by simp [h2], fun _ => ⟨hfull, ?_⟩⟩
    rw [hfull]

/-- Witness for C2: Scenario B satisfies the invariant, succeeds, and
the result is computed from the full two-subject list. -/
theorem calculateResult_validation_witness :
    scenarioB.subjects.filter isValidSubject = scenarioB.subjects ∧
    (calculateResult scenarioB).1 = { scenarioB with
      result := some
        { gpa := calculateGPA scenarioB.subjects,
          grade := getLetterGrade (getGPAPercentage (calculateGPA scenarioB.subjects)),
          remarks := getRemarks (getGPAPercentage (calculateGPA scenarioB.subjects)) },
      showModal := true } :=
  (calculateResult_validation scenarioB (by decide)).2.2 (by decide)

theorem gradePoint_nonneg (m : ℚ) : 0 ≤ gradePoint m := by
  unfold gradePoint; split_ifs <;> norm_num

theorem gradePoint_le_four (m : ℚ) : gradePoint m ≤ 4 := by
  unfold gradePoint; split_ifs <;> norm_num

theorem totalCreditHours_cast (l : List Subject) :
    ((totalCreditHours l : ℕ) : ℚ) = (l.map fun s => (s.creditHours : ℚ)).sum := by
  unfold totalCreditHours
  rw [Nat.cast_list_sum, List.map_map]
  rfl

/-- C1: for a non-empty list of valid subjects with positive total
credit hours, `calculateGPA` is the credit-hour-weighted mean of the
per-subject grade points (stated in product form: gpa × Σ creditHours =
Σ gradePoint × creditHours), and its value lies in [0, 4]. -/
theorem calculateGPA_weighted_mean_in_range (subjects : List Subject)
    (_hne : subjects ≠ [])
    (_hvalid : ∀ s ∈ subjects, isValidSubject s)
    (hpos : 0 < totalCreditHours subjects) :
    calculateGPA subjects * (totalCreditHours subjects : ℚ) =
      (subjects.map fun s => gradePoint s.marks * (s.creditHours : ℚ)).sum ∧
    0 ≤ calculateGPA subjects ∧ calculateGPA subjects ≤ 4 := by
  have hW : (0 : ℚ) < (subjects.map fun s => (s.creditHours : ℚ)).sum := by
    rw [← totalCreditHours_cast]
    exact_mod_cast hpos
  have hWne : (subjects.map fun s => (s.creditHours : ℚ)).sum ≠ 0 := ne_of_gt hW
  have hPnn : (0 : ℚ) ≤ (subjects.map fun s => gradePoint s.marks * (s.creditHours : ℚ)).sum := by
    apply List.sum_nonneg
    intro x hx
    obtain ⟨s, _, rfl⟩ := List.mem_map.mp hx
    exact mul_nonneg (gradePoint_nonneg s.marks) (Nat.cast_nonneg s.creditHours)
  have hPle : (subjects.map fun s => gradePoint s.marks * (s.creditHours : ℚ)).sum ≤
      4 * (subjects.map fun s => (s.creditHours : ℚ)).sum := by
    calc (subjects.map fun s => gradePoint s.marks * (s.creditHours : ℚ)).sum
        ≤ (subjects.map fun s => 4 * (s.creditHours : ℚ)).sum := by
          apply List.sum_le_sum
          intro s _
          exact mul_le_mul_of_nonneg_right (gradePoint_le_four s.marks)
            (Nat.cast_nonneg s.creditHours)
      _ = 4 * (subjects.map fun s => (s.creditHours : ℚ)).sum := by
          rw [← List.sum_map_mul_left]
  unfold calculateGPA
  refine ⟨?_, ?_, ?_⟩
  · rw [totalCreditHours_cast, div_mul_cancel₀ _ hWne]
  · exact div_nonneg hPnn (le_of_lt hW)
  · rw [div_le_iff₀ hW]
    linarith

/-- Witness for C1: a single valid subject with marks 90 and 3 credit
hours (the spec's Scenario A). -/
theorem calculateGPA_weighted_mean_in_range_witness :
    calculateGPA [{ id := "1", name := "Math", marks := 90, creditHours := 3 }] *
      ((totalCreditHours
        [{ id := "1", name := "Math", marks := 90, creditHours := 3 }] : ℕ) : ℚ) =
      (([{ id := "1", name := "Math", marks := 90, creditHours := 3 }] :
          List Subject).map fun s => gradePoint s.marks * (s.creditHours : ℚ)).sum ∧
    0 ≤ calculateGPA [{ id := "1", name := "Math", marks := 90, creditHours := 3 }] ∧
    calculateGPA [{ id := "1", name := "Math", marks := 90, creditHours := 3 }] ≤ 4 :=
  calculateGPA_weighted_mean_in_range
    [{ id := "1", name := "Math", marks := 90, creditHours := 3 }]
    (by decide) (by decide) (by decide)

/-- The sequence of text runs of a document, page breaks dropped. -/
def docTexts (doc : List PdfItem) : List String :=
  doc.filterMap fun item =>
    match item with
    | .text s _ => some s
    | .newPage => none

/-- The expected subject lines starting at a given index, in list
order. -/
def linesFrom (index : ℕ) : List Subject → List String
  | [] => []
  | s :: rest => subjectLine index s :: linesFrom (index + 1) rest

theorem docTexts_append (a b : List PdfItem) :
    docTexts (a ++ b) = docTexts a ++ docTexts b :=
  List.filterMap_append a b _

theorem docTexts_renderSubjects (l : List Subject) :
    ∀ i y, docTexts (renderSubjects i y l) = linesFrom i l := by
  induction l with
  | nil => intro i y; rfl
  | cons s rest ih =>
    intro i y
    unfold renderSubjects
    split_ifs <;> simp [docTexts, List.filterMap_cons, linesFrom] <;>
      simpa [docTexts] using ih _ _

theorem renderSubjects_y_le (l : List Subject) :
    ∀ i y s y', PdfItem.text s y' ∈ renderSubjects i y l → y' ≤ 270 := by
  induction l with
  | nil => intro i y s y' h; simp [renderSubjects] at h
  | cons a rest ih =>
    intro i y s y' h
    unfold renderSubjects at h
    split_ifs at h with hy
    · simp only [List.mem_cons] at h
      rcases h with h | h | h
      · cases h
      · cases h; omega
      · exact ih _ _ _ _ h
    · simp only [List.mem_cons] at h
      rcases h with h | h
      · cases h; omega
      · exact ih _ _ _ _ h

/-- C9: the exported document contains the title, the GPA formatted to
two decimal places, the grade, the remarks and the generation-date
footer; its text runs are exactly title, results section, one line
"<index>. <name>: <marks>/100 (<creditHours> credit hours)" per subject
in original order, and the footer; and pagination keeps every text run
within the page (subject lines at y ≤ 270, everything at y ≤ 280). -/
theorem exportArtifact_contents (r : Result) (subjects : List Subject)
    (dateStr : String) :
    PdfItem.text "UoH GPA Calculator Results" 30 ∈ buildPdf r subjects dateStr ∧
    PdfItem.text ("GPA: " ++ toFixed2 r.gpa) 65 ∈ buildPdf r subjects dateStr ∧
    PdfItem.text ("Grade: " ++ r.grade) 75 ∈ buildPdf r subjects dateStr ∧
    PdfItem.text ("Remarks: " ++ r.remarks) 85 ∈ buildPdf r subjects dateStr ∧
    docTexts (buildPdf r subjects dateStr) =
      ["UoH GPA Calculator Results", "Results:", "GPA: " ++ toFixed2 r.gpa,
       "Grade: " ++ r.grade, "Remarks: " ++ r.remarks, "Subject Details:"] ++
      linesFrom 0 subjects ++
      ["Generated on: " ++ dateStr,
       "Prepared by students of Batch 2024 – AI Section A & B"] ∧
    (∀ s y, PdfItem.text s y ∈ renderSubjects 0 120 subjects → y ≤ 270) ∧
    (∀ s y, PdfItem.text s y ∈ buildPdf r subjects dateStr → y ≤ 280) := by
  refine ⟨?_, ?_, ?_, ?_, ?_, ?_, ?_⟩
  · simp [buildPdf]
  · simp [buildPdf]
  · simp [buildPdf]
  · simp [buildPdf]
  · simp only [buildPdf, docTexts_append, docTexts_renderSubjects]
    split_ifs <;> simp [docTexts, List.filterMap_cons]
  · exact fun s y h => renderSubjects_y_le subjects 0 120 s y h
  · intro s y h
    simp only [buildPdf] at h
    split_ifs at h with hover
    · simp only [List.cons_append, List.nil_append, List.mem_cons,
        List.mem_append, List.not_mem_nil, or_false] at h
      rcases h with h | h | h | h | h | h | (h | h) | h | h
      · cases h; omega
      · cases h; omega
      · cases h; omega
      · cases h; omega
      · cases h; omega
      · cases h; omega
      · have := renderSubjects_y_le subjects 0 120 s y h; omega
      · cases h
      · cases h; omega
      · cases h; omega
    · simp only [List.cons_append, List.nil_append, List.mem_cons,
        List.mem_append, List.not_mem_nil, or_false] at h
      rcases h with h | h | h | h | h | h | h | h | h
      · cases h; omega
      · cases h; omega
      · cases h; omega
      · cases h; omega
      · cases h; omega
      · cases h; omega
      · have := renderSubjects_y_le subjects 0 120 s y h; omega
      · cases h; omega
      · cases h; omega

end UoHGPA
